import Mathlib

/-!
Verification of the subscription bot server (src/server.js): a shallow
embedding of the subscription store, the role-assignment client, the OAuth
callback handler and the two webhook handlers, together with theorems about
their behaviour.  External effects (Discord API calls, the OAuth token and
profile endpoints) are modelled as explicit oracles passed to the handlers;
`Date.now()` is modelled as an explicit `now : Nat` parameter.
-/

namespace SubBot

/-- A value stored in the `subscriptions` map.  OAuth-created entries carry
`discordId`, `username` and `timestamp` (and no `status`, `orderId`,
`createdAt` or `cancelledAt` fields); purchase-created entries carry
`discordId`, `orderId`, `status` and `createdAt`.  Absent JS object fields
are modelled as `none`. -/
structure SubscriptionRecord where
  discordId : String
  username : Option String := none
  orderId : Option String := none
  status : Option String := none
  createdAt : Option Nat := none
  cancelledAt : Option Nat := none
  timestamp : Option Nat := none
deriving Repr, DecidableEq

/-- The in-memory `subscriptions` map, modelled as an association list with
`Map.get`/`Map.set` semantics. -/
abbrev Store := List (String × SubscriptionRecord)

/-- `Map.prototype.get`: the value bound to the first matching key. -/
def Store.get : Store → String → Option SubscriptionRecord
  | [], _ => none
  | (k, v) :: rest, key => if k = key then some v else Store.get rest key

/-- `Map.prototype.set`: overwrite the binding for `key`, or append it. -/
def Store.set : Store → String → SubscriptionRecord → Store
  | [], key, v => [(key, v)]
  | (k, w) :: rest, key, v =>
      if k = key then (k, v) :: rest else (k, w) :: Store.set rest key v

/-- A JSON response body as produced by the handlers: each handler sends
either an `error` field or a `success`/`message` pair. -/
structure JsonBody where
  success : Option Bool := none
  error : Option String := none
  message : Option String := none
deriving Repr, DecidableEq

/-- The HTTP response a handler produces: `res.status(n).json(body)`
(with `res.json(body)` defaulting to status 200), or `res.redirect(url)`. -/
inductive HttpResponse where
  | json (status : Nat) (body : JsonBody)
  | redirect (location : String)
deriving Repr, DecidableEq

/-! ## Role Assignment Client (`assignPremiumRole` / `removePremiumRole`) -/

/-- A fetched guild, as far as the server uses it. -/
structure Guild where
  id : String
deriving Repr, DecidableEq

/-- A fetched guild member, as far as the server uses it. -/
structure Member where
  userId : String
deriving Repr, DecidableEq

/-- A fetched role, as far as the server uses it. -/
structure Role where
  id : String
deriving Repr, DecidableEq

/-- The Discord API surface the two role helpers touch.  Every operation is
fallible: a `.error` models a thrown exception (member not found, role not
found, network error, permission denied — the code does not distinguish). -/
structure RoleApi where
  fetchGuild : String → Except String Guild
  fetchMember : Guild → String → Except String Member
  fetchRole : Guild → String → Except String Role
  addRole : Member → Role → Except String Unit
  removeRole : Member → Role → Except String Unit

/-- The body of the `try` block of `assignPremiumRole`: fetch the guild, the
member and the role, then add the role to the member.  Any step may throw. -/
def assignPremiumRoleBody (api : RoleApi) (guildId roleId discordUserId : String) :
    Except String Unit := do
  let guild ← api.fetchGuild guildId
  let member ← api.fetchMember guild discordUserId
  let role ← api.fetchRole guild roleId
  api.addRole member role

/-- `assignPremiumRole`: run the body under `try`/`catch`, returning `true`
on success and `false` on any thrown error. -/
def assignPremiumRole (api : RoleApi) (guildId roleId discordUserId : String) : Bool :=
  match assignPremiumRoleBody api guildId roleId discordUserId with
  | .ok _ => true
  | .error _ => false

/-- The body of the `try` block of `removePremiumRole`: identical to the
assign body except that it removes the role. -/
def removePremiumRoleBody (api : RoleApi) (guildId roleId discordUserId : String) :
    Except String Unit := do
  let guild ← api.fetchGuild guildId
  let member ← api.fetchMember guild discordUserId
  let role ← api.fetchRole guild roleId
  api.removeRole member role

/-- `removePremiumRole`: run the body under `try`/`catch`, returning `true`
on success and `false` on any thrown error. -/
def removePremiumRole (api : RoleApi) (guildId roleId discordUserId : String) : Bool :=
  match removePremiumRoleBody api guildId roleId discordUserId with
  | .ok _ => true
  | .error _ => false

/-! ## OAuth callback handler (`GET /auth/discord/callback`) -/

/-- The profile returned by the `/users/@me` endpoint, as far as used. -/
structure DiscordUser where
  id : String
  username : String
deriving Repr, DecidableEq

/-- Result of running the OAuth callback handler: the HTTP response, the
store after the handler, and how many token-exchange and profile-fetch
calls were made. -/
structure OAuthResult where
  response : HttpResponse
  store : Store
  tokenExchanges : Nat
  profileFetches : Nat
deriving Repr, DecidableEq

/-- JavaScript truthiness of an optional string (`undefined` and `""` are
falsy). -/
def jsTruthy : Option String → Bool
  | none => false
  | some s => s ≠ ""

/-- The `GET /auth/discord/callback` handler.  `code` is the query
parameter (`none` when absent); `tokenExchange` models the token-endpoint
POST (code to access token) and `fetchProfile` the `/users/@me` fetch
(access token to profile), each fallible (`.error` models a thrown
exception, caught by the surrounding `try`/`catch` into a 500).  On success
the handler mints `sessionId := Date.now().toString()`, stores the profile
under it, and redirects to `WEBSITE_URL ++ "/checkout?session=" ++
sessionId`. -/
def handleOAuthCallback (websiteUrl : String) (code : Option String)
    (tokenExchange : String → Except String String)
    (fetchProfile : String → Except String DiscordUser)
    (store : Store) (now : Nat) : OAuthResult :=
  if jsTruthy code = false then
    { response := .json 400 { error := some "No code provided" },
      store := store, tokenExchanges := 0, profileFetches := 0 }
  else
    match code with
    | none => -- unreachable: `jsTruthy none = false`
      { response := .json 400 { error := some "No code provided" },
        store := store, tokenExchanges := 0, profileFetches := 0 }
    | some c =>
      match tokenExchange c with
      | .error _ =>
        { response := .json 500 { error := some "Authentication failed" },
          store := store, tokenExchanges := 1, profileFetches := 0 }
      | .ok accessToken =>
        match fetchProfile accessToken with
        | .error _ =>
          { response := .json 500 { error := some "Authentication failed" },
            store := store, tokenExchanges := 1, profileFetches := 1 }
        | .ok user =>
          let sessionId := toString now
          { response := .redirect (websiteUrl ++ "/checkout?session=" ++ sessionId),
            store := store.set sessionId
              { discordId := user.id, username := some user.username,
                timestamp := some now },
            tokenExchanges := 1, profileFetches := 1 }

/-! ## Purchase webhook handler (`POST /webhook/purchase`) -/

/-- The nested `customFields` object of a purchase payload. -/
structure CustomFields where
  discordUserId : Option String := none
deriving Repr, DecidableEq

/-- A purchase webhook payload, as far as the handler reads it. -/
structure PurchaseOrder where
  id : String
  customFields : Option CustomFields := none
  discordUserId : Option String := none
deriving Repr, DecidableEq

/-- `order.customFields?.discordUserId || order.discordUserId`, followed by
the `if (!discordUserId)` falsiness check: `none` exactly when the handler
takes the 400 branch. -/
def getDiscordUserId (order : PurchaseOrder) : Option String :=
  let nested := order.customFields.bind (fun cf => cf.discordUserId)
  let value : Option String :=
    match nested with
    | some s => if s = "" then order.discordUserId else some s
    | none => order.discordUserId
  match value with
  | some s => if s = "" then none else some s
  | none => none

/-- Result of running a webhook handler: the HTTP response, the store after
the handler, and the identity ids passed to grant/revoke calls, in order. -/
structure WebhookResult where
  response : HttpResponse
  store : Store
  grantCalls : List String := []
  revokeCalls : List String := []
deriving Repr, DecidableEq

/-- The `POST /webhook/purchase` handler.  `grant` models
`assignPremiumRole` as an oracle from the identity id to its boolean
outcome. -/
def handlePurchase (grant : String → Bool) (order : PurchaseOrder)
    (store : Store) (now : Nat) : WebhookResult :=
  match getDiscordUserId order with
  | none =>
    { response := .json 400 { error := some "No Discord user ID" },
      store := store, grantCalls := [] }
  | some discordUserId =>
    if grant discordUserId then
      { response := .json 200
          { success := some true, message := some "Role assigned successfully" },
        store := store.set order.id
          { discordId := discordUserId, orderId := some order.id,
            status := some "active", createdAt := some now },
        grantCalls := [discordUserId] }
    else
      { response := .json 500 { error := some "Failed to assign role" },
        store := store, grantCalls := [discordUserId] }

/-! ## Cancellation webhook handler (`POST /webhook/cancellation`) -/

/-- The `POST /webhook/cancellation` handler.  `revoke` models
`removePremiumRole` as an oracle from the identity id to its boolean
outcome; the payload is read only for `order.id`. -/
def handleCancellation (revoke : String → Bool) (orderId : String)
    (store : Store) (now : Nat) : WebhookResult :=
  match store.get orderId with
  | none =>
    { response := .json 404 { error := some "Subscription not found" },
      store := store, revokeCalls := [] }
  | some subscription =>
    if revoke subscription.discordId then
      { response := .json 200
          { success := some true, message := some "Role removed successfully" },
        store := store.set orderId
          { subscription with status := some "cancelled", cancelledAt := some now },
        revokeCalls := [subscription.discordId] }
    else
      { response := .json 500 { error := some "Failed to remove role" },
        store := store, revokeCalls := [subscription.discordId] }

/-! ## Store lemmas -/

/-- Reading back the key just written yields the written value. -/
theorem Store.get_set_self (s : Store) (k : String) (v : SubscriptionRecord) :
    (s.set k v).get k = some v := by
  induction s with
  | nil => simp [Store.set, Store.get]
  | cons hd tl ih =>
    obtain ⟨k0, v0⟩ := hd
    by_cases h : k0 = k
    · simp [Store.set, Store.get, h]
    · simp [Store.set, Store.get, h, ih]

/-! ## Claim theorems -/

/-- Claim C1: for every purchase webhook carrying an order id and an
identity id (nested or top-level), if the role grant succeeds the handler
writes a record keyed by the order id with that discordId, that orderId,
status "active" and a creation timestamp, responds 200 with a success
body, and a subsequent store read of that order id yields status
"active". -/
theorem purchase_grant_success_writes_active
    (grant : String → Bool) (order : PurchaseOrder) (store : Store) (now : Nat)
    (discordUserId : String)
    (hid : getDiscordUserId order = some discordUserId)
    (hgrant : grant discordUserId = true) :
    (handlePurchase grant order store now).response =
      .json 200 { success := some true, message := some "Role assigned successfully" } ∧
    (handlePurchase grant order store now).store.get order.id =
      some { discordId := discordUserId, orderId := some order.id,
             status := some "active", createdAt := some now } ∧
    ((handlePurchase grant order store now).store.get order.id).map
      SubscriptionRecord.status = some (some "active") := by
  simp [handlePurchase, hid, hgrant, Store.get_set_self]

/-- Witness for C1 at order `{id := "o1", discordUserId := "d1"}` with a
grant oracle that succeeds. -/
theorem purchase_grant_success_writes_active_witness :
    getDiscordUserId { id := "o1", discordUserId := some "d1" } = some "d1" ∧
    (handlePurchase (fun _ => true) { id := "o1", discordUserId := some "d1" } [] 0).response =
      .json 200 { success := some true, message := some "Role assigned successfully" } ∧
    (handlePurchase (fun _ => true) { id := "o1", discordUserId := some "d1" } [] 0).store.get "o1" =
      some { discordId := "d1", orderId := some "o1",
             status := some "active", createdAt := some 0 } ∧
    ((handlePurchase (fun _ => true) { id := "o1", discordUserId := some "d1" } [] 0).store.get "o1").map
      SubscriptionRecord.status = some (some "active") :=
  ⟨by decide,
   purchase_grant_success_writes_active (fun _ => true)
     { id := "o1", discordUserId := some "d1" } [] 0 "d1" (by decide) rfl⟩

/-- Claim C2: for every cancellation webhook whose order id is present in
the store, if the revoke succeeds the handler sets the stored record's
status from "active" to "cancelled", sets a cancellation timestamp, and
responds 200 with a success body. -/
theorem cancellation_revoke_success_cancels
    (revoke : String → Bool) (orderId : String) (store : Store) (now : Nat)
    (sub : SubscriptionRecord)
    (hget : store.get orderId = some sub)
    (_hstatus : sub.status = some "active")
    (hrevoke : revoke sub.discordId = true) :
    (handleCancellation revoke orderId store now).response =
      .json 200 { success := some true, message := some "Role removed successfully" } ∧
    (handleCancellation revoke orderId store now).store.get orderId =
      some { sub with status := some "cancelled", cancelledAt := some now } ∧
    ((handleCancellation revoke orderId store now).store.get orderId).map
      SubscriptionRecord.status = some (some "cancelled") ∧
    ((handleCancellation revoke orderId store now).store.get orderId).map
      SubscriptionRecord.cancelledAt = some (some now) := by
  simp [handleCancellation, hget, hrevoke, Store.get_set_self]

/-- Witness for C2: store holds an active record for "o1"; revoke
succeeds at time 5. -/
theorem cancellation_revoke_success_cancels_witness :
    Store.get
      [("o1", { discordId := "d1", orderId := some "o1", status := some "active",
                createdAt := some 0 })] "o1" =
      some { discordId := "d1", orderId := some "o1", status := some "active",
             createdAt := some 0 } ∧
    (handleCancellation (fun _ => true) "o1"
        [("o1", { discordId := "d1", orderId := some "o1", status := some "active",
                  createdAt := some 0 })] 5).response =
      .json 200 { success := some true, message := some "Role removed successfully" } ∧
    Store.get
      (handleCancellation (fun _ => true) "o1"
        [("o1", { discordId := "d1", orderId := some "o1", status := some "active",
                  createdAt := some 0 })] 5).store "o1" =
      some { discordId := "d1", orderId := some "o1", status := some "cancelled",
             createdAt := some 0, cancelledAt := some 5 } := by
  refine ⟨by decide, ?_⟩
  have h := cancellation_revoke_success_cancels (fun _ => true) "o1"
    [("o1", { discordId := "d1", orderId := some "o1", status := some "active",
              createdAt := some 0 })] 5
    { discordId := "d1", orderId := some "o1", status := some "active", createdAt := some 0 }
    (by decide) rfl rfl
  exact ⟨h.1, h.2.1⟩

/-- Claim C3 counterexample: on a successful OAuth callback (code "c",
token exchange and profile fetch succeed, at time 5) the handler stores a
record under session key "5" whose `status` field is absent (`none`), not
"pending-link": the source writes only `discordId`, `username` and
`timestamp`. -/
theorem oauth_record_status_not_pending_link :
    Store.get
      (handleOAuthCallback "https://example.com" (some "c")
        (fun _ => .ok "tok") (fun _ => .ok { id := "d1", username := "alice" })
        [] 5).store "5" =
      some { discordId := "d1", username := some "alice", timestamp := some 5 } ∧
    (some { discordId := "d1", username := some "alice", timestamp := some 5 } :
        Option SubscriptionRecord).map SubscriptionRecord.status ≠
      some (some "pending-link") := by
  constructor
  · decide
  · decide

/-- Claim C3 (amended): for every OAuth callback with a non-empty code
whose token exchange and profile fetch succeed, the handler stores a
session record (discordId, username, timestamp, and no status field) keyed
by a freshly minted session key (the current timestamp as a string), and
responds with a redirect to the configured checkout URL with the session
key appended as a query parameter. -/
theorem oauth_success_stores_session_and_redirects
    (websiteUrl : String) (code : Option String)
    (tokenExchange : String → Except String String)
    (fetchProfile : String → Except String DiscordUser)
    (store : Store) (now : Nat) (c accessToken : String) (user : DiscordUser)
    (hcode : code = some c) (hc : c ≠ "")
    (htok : tokenExchange c = .ok accessToken)
    (hprof : fetchProfile accessToken = .ok user) :
    (handleOAuthCallback websiteUrl code tokenExchange fetchProfile store now).response =
      .redirect (websiteUrl ++ "/checkout?session=" ++ toString now) ∧
    Store.get
      (handleOAuthCallback websiteUrl code tokenExchange fetchProfile store now).store
      (toString now) =
      some { discordId := user.id, username := some user.username,
             timestamp := some now } := by
  subst hcode
  simp [handleOAuthCallback, jsTruthy, hc, htok, hprof, Store.get_set_self]

/-- Witness for the amended C3 at code "c", successful exchanges, time 5. -/
theorem oauth_success_stores_session_and_redirects_witness :
    (some "c" : Option String) = some "c" ∧ "c" ≠ "" ∧
    (handleOAuthCallback "https://example.com" (some "c")
        (fun _ => .ok "tok") (fun _ => .ok { id := "d1", username := "alice" })
        [] 5).response =
      .redirect ("https://example.com" ++ "/checkout?session=" ++ toString 5) ∧
    Store.get
      (handleOAuthCallback "https://example.com" (some "c")
        (fun _ => .ok "tok") (fun _ => .ok { id := "d1", username := "alice" })
        [] 5).store (toString 5) =
      some { discordId := "d1", username := some "alice", timestamp := some 5 } := by
  refine ⟨rfl, by decide, ?_⟩
  exact oauth_success_stores_session_and_redirects "https://example.com" (some "c")
    (fun _ => .ok "tok") (fun _ => .ok { id := "d1", username := "alice" })
    [] 5 "c" "tok" { id := "d1", username := "alice" }
    rfl (by decide) rfl rfl

/-- Claim C4: for every purchase webhook whose body lacks an identity id
both in the nested custom-field location and in the top-level field, the
handler responds 400 and the store is left unchanged (no entry created,
and no grant call is made). -/
theorem purchase_missing_discord_id_400
    (grant : String → Bool) (order : PurchaseOrder) (store : Store) (now : Nat)
    (hnested : order.customFields.bind (fun cf => cf.discordUserId) = none)
    (htop : order.discordUserId = none) :
    (handlePurchase grant order store now).response =
      .json 400 { error := some "No Discord user ID" } ∧
    (handlePurchase grant order store now).store = store ∧
    (handlePurchase grant order store now).grantCalls = [] := by
  have hid : getDiscordUserId order = none := by
    simp [getDiscordUserId, hnested, htop]
  simp [handlePurchase, hid]

/-- Witness for C4 at an order with no identity id anywhere. -/
theorem purchase_missing_discord_id_400_witness :
    (({ id := "o1" } : PurchaseOrder).customFields.bind (fun cf => cf.discordUserId) = none) ∧
    (({ id := "o1" } : PurchaseOrder).discordUserId = none) ∧
    (handlePurchase (fun _ => true) { id := "o1" } [] 0).response =
      .json 400 { error := some "No Discord user ID" } ∧
    (handlePurchase (fun _ => true) { id := "o1" } [] 0).store = [] ∧
    (handlePurchase (fun _ => true) { id := "o1" } [] 0).grantCalls = [] := by
  refine ⟨rfl, rfl, ?_⟩
  exact purchase_missing_discord_id_400 (fun _ => true) { id := "o1" } [] 0 rfl rfl

/-- Claim C5: for every purchase webhook with an identity id present, if
the grant fails the handler responds 500 and the store is unchanged; and
any store mutation by the purchase handler requires a grant call that
returned true. -/
theorem purchase_grant_failure_500_store_unchanged
    (grant : String → Bool) (order : PurchaseOrder) (store : Store) (now : Nat)
    (discordUserId : String)
    (hid : getDiscordUserId order = some discordUserId)
    (hgrant : grant discordUserId = false) :
    (handlePurchase grant order store now).response =
      .json 500 { error := some "Failed to assign role" } ∧
    (handlePurchase grant order store now).store = store ∧
    (∀ (g : String → Bool) (o : PurchaseOrder) (s : Store) (n : Nat),
      (handlePurchase g o s n).store ≠ s →
      ∃ uid, getDiscordUserId o = some uid ∧ g uid = true) := by
  refine ⟨?_, ?_, ?_⟩
  · simp [handlePurchase, hid, hgrant]
  · simp [handlePurchase, hid, hgrant]
  · intro g o s n hne
    cases hid2 : getDiscordUserId o with
    | none => exact absurd (by simp [handlePurchase, hid2]) hne
    | some uid =>
      cases hg : g uid with
      | false => exact absurd (by simp [handlePurchase, hid2, hg]) hne
      | true => exact ⟨uid, rfl, hg⟩

/-- Witness for C5 at order `{id := "o1", discordUserId := "d1"}` with a
grant oracle that fails. -/
theorem purchase_grant_failure_500_store_unchanged_witness :
    getDiscordUserId { id := "o1", discordUserId := some "d1" } = some "d1" ∧
    ((fun _ => false : String → Bool) "d1" = false) ∧
    (handlePurchase (fun _ => false) { id := "o1", discordUserId := some "d1" } [] 0).response =
      .json 500 { error := some "Failed to assign role" } ∧
    (handlePurchase (fun _ => false) { id := "o1", discordUserId := some "d1" } [] 0).store = [] := by
  refine ⟨by decide, rfl, ?_⟩
  have h := purchase_grant_failure_500_store_unchanged (fun _ => false)
    { id := "o1", discordUserId := some "d1" } [] 0 "d1" (by decide) rfl
  exact ⟨h.1, h.2.1⟩

/-- Claim C6: for every cancellation webhook whose order id is not a key
of the store, the handler responds 404, the store is unchanged, and no
revoke call is made. -/
theorem cancellation_unknown_order_404
    (revoke : String → Bool) (orderId : String) (store : Store) (now : Nat)
    (hget : store.get orderId = none) :
    (handleCancellation revoke orderId store now).response =
      .json 404 { error := some "Subscription not found" } ∧
    (handleCancellation revoke orderId store now).store = store ∧
    (handleCancellation revoke orderId store now).revokeCalls = [] := by
  simp [handleCancellation, hget]

/-- Witness for C6 on the empty store. -/
theorem cancellation_unknown_order_404_witness :
    Store.get [] "o9" = none ∧
    (handleCancellation (fun _ => true) "o9" [] 0).response =
      .json 404 { error := some "Subscription not found" } ∧
    (handleCancellation (fun _ => true) "o9" [] 0).store = [] ∧
    (handleCancellation (fun _ => true) "o9" [] 0).revokeCalls = [] :=
  ⟨rfl, cancellation_unknown_order_404 (fun _ => true) "o9" [] 0 rfl⟩

/-- Claim C7: for every cancellation webhook whose order id is present in
the store, if the revoke fails the handler responds 500 and the stored
record (in particular its status field) is left unchanged. -/
theorem cancellation_revoke_failure_500_status_unchanged
    (revoke : String → Bool) (orderId : String) (store : Store) (now : Nat)
    (sub : SubscriptionRecord)
    (hget : store.get orderId = some sub)
    (hrevoke : revoke sub.discordId = false) :
    (handleCancellation revoke orderId store now).response =
      .json 500 { error := some "Failed to remove role" } ∧
    (handleCancellation revoke orderId store now).store = store ∧
    (Store.get (handleCancellation revoke orderId store now).store orderId).map
      SubscriptionRecord.status = some sub.status := by
  refine ⟨?_, ?_, ?_⟩
  · simp [handleCancellation, hget, hrevoke]
  · simp [handleCancellation, hget, hrevoke]
  · simp [handleCancellation, hget, hrevoke]

/-- Witness for C7: an active record for "o1", revoke fails. -/
theorem cancellation_revoke_failure_500_status_unchanged_witness :
    Store.get
      [("o1", { discordId := "d1", orderId := some "o1", status := some "active",
                createdAt := some 0 })] "o1" =
      some { discordId := "d1", orderId := some "o1", status := some "active",
             createdAt := some 0 } ∧
    (handleCancellation (fun _ => false) "o1"
        [("o1", { discordId := "d1", orderId := some "o1", status := some "active",
                  createdAt := some 0 })] 5).response =
      .json 500 { error := some "Failed to remove role" } ∧
    Store.get
      (handleCancellation (fun _ => false) "o1"
        [("o1", { discordId := "d1", orderId := some "o1", status := some "active",
                  createdAt := some 0 })] 5).store "o1" =
      some { discordId := "d1", orderId := some "o1", status := some "active",
             createdAt := some 0 } := by
  refine ⟨by decide, ?_⟩
  have h := cancellation_revoke_failure_500_status_unchanged (fun _ => false) "o1"
    [("o1", { discordId := "d1", orderId := some "o1", status := some "active",
              createdAt := some 0 })] 5
    { discordId := "d1", orderId := some "o1", status := some "active", createdAt := some 0 }
    (by decide) rfl
  refine ⟨h.1, ?_⟩
  rw [h.2.1]
  decide

/-- Claim C8: for every OAuth callback request with no `code` query
parameter, the handler responds 400, makes no token-exchange or
profile-fetch call, and leaves the store unchanged. -/
theorem oauth_missing_code_400
    (websiteUrl : String)
    (tokenExchange : String → Except String String)
    (fetchProfile : String → Except String DiscordUser)
    (store : Store) (now : Nat) :
    (handleOAuthCallback websiteUrl none tokenExchange fetchProfile store now).response =
      .json 400 { error := some "No code provided" } ∧
    (handleOAuthCallback websiteUrl none tokenExchange fetchProfile store now).store = store ∧
    (handleOAuthCallback websiteUrl none tokenExchange fetchProfile store now).tokenExchanges = 0 ∧
    (handleOAuthCallback websiteUrl none tokenExchange fetchProfile store now).profileFetches = 0 := by
  simp [handleOAuthCallback, jsTruthy]

/-- Claim C9: the grant and revoke operations never propagate an
exception: each returns `true` exactly when every underlying lookup and
mutation succeeded, and `false` exactly when some step failed, for every
possible outcome of the Discord API. -/
theorem role_ops_swallow_failures (api : RoleApi) (guildId roleId discordUserId : String) :
    (assignPremiumRole api guildId roleId discordUserId = true ↔
      assignPremiumRoleBody api guildId roleId discordUserId = .ok ()) ∧
    (assignPremiumRole api guildId roleId discordUserId = false ↔
      ∃ e, assignPremiumRoleBody api guildId roleId discordUserId = .error e) ∧
    (removePremiumRole api guildId roleId discordUserId = true ↔
      removePremiumRoleBody api guildId roleId discordUserId = .ok ()) ∧
    (removePremiumRole api guildId roleId discordUserId = false ↔
      ∃ e, removePremiumRoleBody api guildId roleId discordUserId = .error e) := by
  unfold assignPremiumRole removePremiumRole
  constructor
  · cases h : assignPremiumRoleBody api guildId roleId discordUserId with
    | ok u => cases u; simp
    | error e => simp
  constructor
  · cases h : assignPremiumRoleBody api guildId roleId discordUserId with
    | ok u => cases u; simp
    | error e => simp
  constructor
  · cases h : removePremiumRoleBody api guildId roleId discordUserId with
    | ok u => cases u; simp
    | error e => simp
  · cases h : removePremiumRoleBody api guildId roleId discordUserId with
    | ok u => cases u; simp
    | error e => simp

/-- Claim C10: the cancellation handler never inspects the stored record's
status: for every record found under the order id — whatever its status
field holds, including none at all — it calls revoke exactly once on the
record's stored discordId, and when the revoke succeeds it overwrites the
cancellation timestamp with the current time and responds 200. -/
theorem cancellation_ignores_status
    (revoke : String → Bool) (orderId : String) (store : Store) (now : Nat)
    (sub : SubscriptionRecord)
    (hget : store.get orderId = some sub) :
    (handleCancellation revoke orderId store now).revokeCalls = [sub.discordId] ∧
    (revoke sub.discordId = true →
      (handleCancellation revoke orderId store now).response =
        .json 200 { success := some true, message := some "Role removed successfully" } ∧
      Store.get (handleCancellation revoke orderId store now).store orderId =
        some { sub with status := some "cancelled", cancelledAt := some now }) := by
  cases hrev : revoke sub.discordId with
  | false => simp [handleCancellation, hget, hrev]
  | true => simp [handleCancellation, hget, hrev, Store.get_set_self]

/-- Witness for C10: the stored record is an OAuth-created session record
with no status field at all; the handler still revokes its discordId and,
revoke succeeding, stamps status "cancelled" and a fresh cancelledAt. -/
theorem cancellation_ignores_status_witness :
    Store.get [("o1", { discordId := "d1", username := some "alice",
                        timestamp := some 1 })] "o1" =
      some { discordId := "d1", username := some "alice", timestamp := some 1 } ∧
    (handleCancellation (fun _ => true) "o1"
        [("o1", { discordId := "d1", username := some "alice",
                  timestamp := some 1 })] 9).revokeCalls = ["d1"] ∧
    (handleCancellation (fun _ => true) "o1"
        [("o1", { discordId := "d1", username := some "alice",
                  timestamp := some 1 })] 9).response =
      .json 200 { success := some true, message := some "Role removed successfully" } ∧
    Store.get
      (handleCancellation (fun _ => true) "o1"
        [("o1", { discordId := "d1", username := some "alice",
                  timestamp := some 1 })] 9).store "o1" =
      some { discordId := "d1", username := some "alice", status := some "cancelled",
             cancelledAt := some 9, timestamp := some 1 } := by
  refine ⟨by decide, ?_⟩
  have h := cancellation_ignores_status (fun _ => true) "o1"
    [("o1", { discordId := "d1", username := some "alice", timestamp := some 1 })] 9
    { discordId := "d1", username := some "alice", timestamp := some 1 }
    (by decide)
  exact ⟨h.1, (h.2 rfl).1, (h.2 rfl).2⟩

end SubBot
